import Mathlib

/-!
# Verification of `beancount/core/account.py`

A shallow embedding of the `beancount.core.account` module and proofs about
its operations: typed account construction, parent/leaf name decomposition,
account-name grammar validation, sort keys, balance-sheet / income-statement
classification, and dictionary coercion.

Python strings are embedded as `String`, Python `None`-or-string results as
`Option String`, and fallible operations (assertion failures, `NameError`,
`KeyError`) as `Except PyError`.  Splitting on `':'` and joining with `':'`
are modelled by structurally recursive functions on the character list, which
agree with Python's `str.split(':')` and `':'.join` (for example,
`"".split(':') == ['']`).
-/

namespace Beancount

/-- The runtime failures of the module: the `assert ... in ACCOUNT_TYPES`
checks (the spec's `InvalidAccountType`), the unbound-variable failure in
`account_name_leaf`, and a missing dictionary key. -/
inductive PyError where
  | invalidAccountType
  | nameError
  | keyError
deriving DecidableEq, Repr

/-- Python `Account = namedtuple('Account', 'name type')`. -/
structure Account where
  name : String
  type : String
deriving DecidableEq, Repr

/-- Modelled from the spec: the module `beancount.core.account_types` is not in
the source tree; the spec fixes the registered root types as Assets,
Liabilities, Equity, Income, Expenses. -/
def ACCOUNT_TYPES : List String := ["Assets", "Liabilities", "Equity", "Income", "Expenses"]

/-- Modelled from the spec: `TYPES_ORDER` ranks each registered root type in
the canonical order Assets < Liabilities < Equity < Income < Expenses; lookup
of an unregistered type is a `KeyError`, rendered here as `none`. -/
def TYPES_ORDER (s : String) : Option Nat :=
  match s with
  | "Assets" => some 0
  | "Liabilities" => some 1
  | "Equity" => some 2
  | "Income" => some 3
  | "Expenses" => some 4
  | _ => none

/-- Split a character list on `':'`; models Python `str.split(':')` at the
character level (the empty string yields one empty segment). -/
def splitOnColon : List Char → List (List Char)
  | [] => [[]]
  | c :: rest =>
    let r := splitOnColon rest
    if c = ':' then [] :: r
    else
      match r with
      | [] => [[c]]
      | seg :: segs => (c :: seg) :: segs

/-- Python `account_name.split(':')`. -/
def pySplitColon (s : String) : List String := (splitOnColon s.data).map String.mk

/-- Python `':'.join(components)`. -/
def pyJoinColon : List String → String
  | [] => ""
  | [s] => s
  | s :: rest => s ++ ":" ++ pyJoinColon rest

/-- Python `account_name.split(':')[0]` (a split is never empty, so index 0
always exists). -/
def firstSegment (account_name : String) : String := (pySplitColon account_name).headD ""

/-- Embeds `account_name_type`: take the first colon-segment and assert that it is a
registered account type. -/
def account_name_type (account_name : String) : Except PyError String :=
  let atype := firstSegment account_name
  if ACCOUNT_TYPES.contains atype then Except.ok atype
  else Except.error PyError.invalidAccountType

/-- Embeds `account_from_name`: derive the type via `account_name_type` (which may
fail), re-assert membership, and build the `Account`. -/
def account_from_name (account_name : String) : Except PyError Account :=
  match account_name_type account_name with
  | Except.error e => Except.error e
  | Except.ok atype =>
    if ACCOUNT_TYPES.contains atype then Except.ok { name := account_name, type := atype }
    else Except.error PyError.invalidAccountType

/-- Embeds `account_name_parent`: `None` for the empty string, otherwise split on
colons, drop the last component and re-join. -/
def account_name_parent (account_name : String) : Option String :=
  if account_name = "" then none
  else some (pyJoinColon ((pySplitColon account_name).dropLast))

/-- Embeds `account_name_leaf` exactly as written in the source: its conditional reads
the free variable `name`, which is bound nowhere in the module (and is no
Python builtin), so every call raises `NameError` before the argument is ever
inspected. -/
def account_name_leaf (_account_name : String) : Except PyError (Option String) :=
  Except.error PyError.nameError

/-- Modelled from the spec: the intended `leafName` — the final colon-segment
of the supplied argument, or an absent value for the empty string. -/
def spec_leaf_name (account_name : String) : Option String :=
  if account_name = "" then none
  else some ((pySplitColon account_name).getLastD "")

/-- Embeds `account_sortkey`: the pair `(TYPES_ORDER[account.type], account.name)`;
an unregistered type is a `KeyError`. -/
def account_sortkey (account : Account) : Except PyError (Nat × String) :=
  match TYPES_ORDER account.type with
  | some rank => Except.ok (rank, account.name)
  | none => Except.error PyError.keyError

/-- Embeds `account_name_sortkey`: derive the type via `account_name_type`, then pair
its rank with the full name. -/
def account_name_sortkey (account_name : String) : Except PyError (Nat × String) :=
  match account_name_type account_name with
  | Except.error e => Except.error e
  | Except.ok t =>
    match TYPES_ORDER t with
    | some rank => Except.ok (rank, account_name)
    | none => Except.error PyError.keyError

/-- Python's ordering on the `(rank, name)` sort-key tuples: lexicographic on
the pair, with names compared by code points (which is what `String` `<`
means: lexicographic order on the character list). -/
def keyLt (x y : Nat × String) : Prop := x.1 < y.1 ∨ (x.1 = y.1 ∧ x.2 < y.2)

/-- A character of the regex class `[A-Za-z0-9\-]` (ASCII, as in Python's
`re`). -/
def is_segment_char (c : Char) : Bool := c.isAlphanum || c == '-'

/-- A string matching the regex piece `[A-Z][A-Za-z0-9\-]+`: an ASCII
uppercase letter followed by at least one character of the class. -/
def is_segment (seg : String) : Bool :=
  match seg.data with
  | [] => false
  | c :: rest => c.isUpper && !rest.isEmpty && rest.all is_segment_char

/-- The string is exactly `SEGMENT(:SEGMENT)+`: two or more colon-separated
segments, each matching `[A-Z][A-Za-z0-9\-]+`.  Since segments contain no
colon, this is equivalent to the regex consuming the whole string. -/
def is_account_name_core (s : String) : Bool :=
  let segs := pySplitColon s
  decide (2 ≤ segs.length) && segs.all is_segment

/-- Embeds `is_account_name`, i.e.
`bool(re.match('([A-Z][A-Za-z0-9\-]+)(:[A-Z][A-Za-z0-9\-]+)+$', string))`.
Python's `re.match` anchors at the start, and the final `$` matches at the end
of the string or just before a newline that ends the string.  No segment
character can be a colon or a newline, so the regex matches exactly when the
string, with a single trailing newline removed if present, is
`SEGMENT(:SEGMENT)+`. -/
def is_account_name (string : String) : Bool :=
  if string.data.getLast? = some '\n' then is_account_name_core (String.mk string.data.dropLast)
  else is_account_name_core string

/-- Follows the spec's words for `isValidName`: at least two colon-separated
segments, each an uppercase letter followed by one or more letters, digits or
hyphens, with no other characters before or after. -/
def spec_segment_ok (seg : String) : Bool :=
  match seg.data with
  | [] => false
  | c :: rest => c.isUpper && !rest.isEmpty &&
      rest.all (fun d => d.isUpper || d.isLower || d.isDigit || d == '-')

/-- Follows the spec's words for `isValidName` (see `spec_segment_ok`). -/
def specValidName (text : String) : Bool :=
  let segs := pySplitColon text
  decide (2 ≤ segs.length) && segs.all spec_segment_ok

/-- Embeds `is_account_name_root`: the name is exactly one of the registered root
types. -/
def is_account_name_root (account_name : String) : Bool :=
  ACCOUNT_TYPES.contains account_name

/-- Embeds `is_balance_sheet_account`: membership of `account.type` in the lazily
evaluated generator `(options[x] for x in ('name_assets', 'name_liabilities',
'name_equity'))`; a missing key raises `KeyError` when (and only when) the
generator reaches it. -/
def is_balance_sheet_account (account : Account) (options : String → Option String) :
    Except PyError Bool :=
  match options "name_assets" with
  | none => Except.error PyError.keyError
  | some v =>
    if account.type == v then Except.ok true
    else
      match options "name_liabilities" with
      | none => Except.error PyError.keyError
      | some v =>
        if account.type == v then Except.ok true
        else
          match options "name_equity" with
          | none => Except.error PyError.keyError
          | some v => Except.ok (account.type == v)

/-- Embeds `is_income_statement_account`: membership of `account.type` in the lazily
evaluated generator `(options[x] for x in ('name_income', 'name_expenses'))`. -/
def is_income_statement_account (account : Account) (options : String → Option String) :
    Except PyError Bool :=
  match options "name_income" with
  | none => Except.error PyError.keyError
  | some v =>
    if account.type == v then Except.ok true
    else
      match options "name_expenses" with
      | none => Except.error PyError.keyError
      | some v => Except.ok (account.type == v)

/-- A Python value as it may appear in the dictionary fed to
`accountify_dict`: a string, an integer, an `Account`, or `None`. -/
inductive PyValue where
  | pyStr (s : String)
  | pyInt (n : Int)
  | pyAccount (a : Account)
  | pyNone
deriving DecidableEq, Repr

/-- The per-value step of `accountify_dict`:
`account_from_name(value) if isinstance(value, str) and is_account_name(value)
else value`.  Note that `account_from_name` may itself fail. -/
def accountify_value : PyValue → Except PyError PyValue
  | PyValue.pyStr s =>
    if is_account_name s then (account_from_name s).map PyValue.pyAccount
    else Except.ok (PyValue.pyStr s)
  | v => Except.ok v

/-- Embeds `accountify_dict`: the dict comprehension, embedded over an association
list in iteration order; the first failing conversion aborts the whole
comprehension. -/
def accountify_dict : List (String × PyValue) → Except PyError (List (String × PyValue))
  | [] => Except.ok []
  | kv :: rest =>
    match accountify_value kv.2 with
    | Except.error e => Except.error e
    | Except.ok v =>
      match accountify_dict rest with
      | Except.error e => Except.error e
      | Except.ok rest' => Except.ok ((kv.1, v) :: rest')

/-- Follows the spec's words for `coerceStringMapToAccounts` value handling: a
string value passing the grammar check becomes the constructed Account (the
name paired with its first segment as type); every other value is unchanged. -/
def specCoerceValue : PyValue → PyValue
  | PyValue.pyStr s =>
    if is_account_name s then PyValue.pyAccount { name := s, type := firstSegment s }
    else PyValue.pyStr s
  | v => v

/-- A dictionary value on which `accountify_value` cannot fail: if it is a
string that passes the grammar check, its first segment is registered. -/
def good_value : PyValue → Prop
  | PyValue.pyStr s =>
    is_account_name s = true → ACCOUNT_TYPES.contains (firstSegment s) = true
  | _ => True

instance good_value_decidable : (v : PyValue) → Decidable (good_value v)
  | PyValue.pyStr _ => by unfold good_value; infer_instance
  | PyValue.pyInt _ => by unfold good_value; infer_instance
  | PyValue.pyAccount _ => by unfold good_value; infer_instance
  | PyValue.pyNone => by unfold good_value; infer_instance

/-- A sample options dictionary supplying the five role keys with the
conventional values. -/
def sampleOptions : String → Option String := fun key =>
  if key = "name_assets" then some "Assets"
  else if key = "name_liabilities" then some "Liabilities"
  else if key = "name_equity" then some "Equity"
  else if key = "name_income" then some "Income"
  else if key = "name_expenses" then some "Expenses"
  else none

/-! ## Helper lemmas -/

theorem account_name_type_eq_ok (n : String)
    (h : ACCOUNT_TYPES.contains (firstSegment n) = true) :
    account_name_type n = Except.ok (firstSegment n) := by
  have h' : firstSegment n ∈ ACCOUNT_TYPES := by simpa using h
  simp [account_name_type, h']

theorem account_name_type_eq_error (n : String)
    (h : ACCOUNT_TYPES.contains (firstSegment n) = false) :
    account_name_type n = Except.error PyError.invalidAccountType := by
  have h' : firstSegment n ∉ ACCOUNT_TYPES := by simpa using h
  simp [account_name_type, h']

theorem account_from_name_eq_ok (n : String)
    (h : ACCOUNT_TYPES.contains (firstSegment n) = true) :
    account_from_name n = Except.ok { name := n, type := firstSegment n } := by
  have h' : firstSegment n ∈ ACCOUNT_TYPES := by simpa using h
  simp [account_from_name, account_name_type_eq_ok n h, h']

theorem account_from_name_eq_error (n : String)
    (h : ACCOUNT_TYPES.contains (firstSegment n) = false) :
    account_from_name n = Except.error PyError.invalidAccountType := by
  simp [account_from_name, account_name_type_eq_error n h]

theorem account_from_name_ok_inv (n : String) (a : Account)
    (h : account_from_name n = Except.ok a) :
    ACCOUNT_TYPES.contains (firstSegment n) = true ∧
      a = { name := n, type := firstSegment n } := by
  cases hc : ACCOUNT_TYPES.contains (firstSegment n) with
  | false => rw [account_from_name_eq_error n hc] at h; cases h
  | true =>
    rw [account_from_name_eq_ok n hc] at h
    simp only [Except.ok.injEq] at h
    exact ⟨rfl, h.symm⟩

theorem TYPES_ORDER_inj (s t : String) (r : Nat)
    (hs : TYPES_ORDER s = some r) (ht : TYPES_ORDER t = some r) : s = t := by
  unfold TYPES_ORDER at hs ht
  split at hs <;> split at ht <;> simp_all <;> omega

theorem is_segment_char_eq (c : Char) :
    is_segment_char c = (c.isUpper || c.isLower || c.isDigit || c == '-') := by
  simp [is_segment_char, Char.isAlphanum, Char.isAlpha, Bool.or_assoc]

theorem is_segment_eq_spec (seg : String) : is_segment seg = spec_segment_ok seg := by
  have hfun : is_segment_char = fun d => d.isUpper || d.isLower || d.isDigit || d == '-' :=
    funext is_segment_char_eq
  unfold is_segment spec_segment_ok
  rw [hfun]

theorem is_account_name_core_eq_spec (s : String) :
    is_account_name_core s = specValidName s := by
  have hfun : is_segment = spec_segment_ok := funext is_segment_eq_spec
  unfold is_account_name_core specValidName
  rw [hfun]

theorem is_balance_sheet_account_eval (a : Account) (options : String → Option String)
    (va vl ve : String)
    (h1 : options "name_assets" = some va) (h2 : options "name_liabilities" = some vl)
    (h3 : options "name_equity" = some ve) :
    is_balance_sheet_account a options =
      Except.ok (a.type == va || (a.type == vl || a.type == ve)) := by
  unfold is_balance_sheet_account
  rw [h1, h2, h3]
  cases hva : a.type == va <;> cases hvl : a.type == vl <;> simp [hva, hvl]

theorem is_income_statement_account_eval (a : Account) (options : String → Option String)
    (vi vx : String)
    (h4 : options "name_income" = some vi) (h5 : options "name_expenses" = some vx) :
    is_income_statement_account a options = Except.ok (a.type == vi || a.type == vx) := by
  unfold is_income_statement_account
  rw [h4, h5]
  cases hvi : a.type == vi <;> simp [hvi]

theorem accountify_value_ok (v : PyValue) (h : good_value v) :
    accountify_value v = Except.ok (specCoerceValue v) := by
  cases v with
  | pyStr s =>
    cases hv : is_account_name s with
    | false => simp [accountify_value, specCoerceValue, hv]
    | true =>
      have hc : ACCOUNT_TYPES.contains (firstSegment s) = true := h hv
      simp [accountify_value, specCoerceValue, hv, account_from_name_eq_ok s hc, Except.map]
  | pyInt n => rfl
  | pyAccount a => rfl
  | pyNone => rfl

theorem accountify_dict_ok (d : List (String × PyValue)) (h : ∀ kv ∈ d, good_value kv.2) :
    accountify_dict d = Except.ok (d.map (fun kv => (kv.1, specCoerceValue kv.2))) := by
  revert h
  induction d with
  | nil => intro _; rfl
  | cons kv rest ih =>
    intro h
    have h1 := h kv (List.mem_cons_self kv rest)
    have h2 : ∀ kv' ∈ rest, good_value kv'.2 := fun kv' hm => h kv' (List.mem_cons_of_mem kv hm)
    simp [accountify_dict, accountify_value_ok kv.2 h1, ih h2]

/-! ## Claim theorems -/

/-- Claim C1, counterexample: `"Foo:Bar"` passes the grammar check
`is_account_name`, yet `account_from_name` fails on it, because the first
segment `"Foo"` is not a registered account type.  So grammar validity alone
does not make the factory succeed. -/
theorem is_account_name_not_sufficient_for_construct :
    is_account_name "Foo:Bar" = true ∧
    account_from_name "Foo:Bar" = Except.error PyError.invalidAccountType :=
  ⟨by decide, rfl⟩

/-- Claim C1 (amended): for every string `n` that passes `is_account_name` and
whose first colon-segment is a registered root type, `account_from_name n`
succeeds and returns an `Account` whose `name` is `n` and whose `type` is the
first segment (the value of `account_name_type n`); and every `Account` the
factory ever returns satisfies `type == firstSegment(name)`. -/
theorem account_from_name_spec :
    (∀ n, is_account_name n = true → ACCOUNT_TYPES.contains (firstSegment n) = true →
      account_from_name n = Except.ok { name := n, type := firstSegment n } ∧
      account_name_type n = Except.ok (firstSegment n)) ∧
    (∀ n a, account_from_name n = Except.ok a → a.name = n ∧ a.type = firstSegment a.name) := by
  constructor
  · exact fun n _ hc => ⟨account_from_name_eq_ok n hc, account_name_type_eq_ok n hc⟩
  · intro n a h
    obtain ⟨-, rfl⟩ := account_from_name_ok_inv n a h
    exact ⟨rfl, rfl⟩

theorem account_from_name_spec_witness :
    account_from_name "Assets:US:Checking" =
      Except.ok { name := "Assets:US:Checking", type := "Assets" } :=
  (account_from_name_spec.1 "Assets:US:Checking" (by decide) (by decide)).1

/-- Claim C2, counterexample: on the empty string `account_name_parent`
returns `None` (an absent value), not the empty string. -/
theorem account_name_parent_empty_none :
    account_name_parent "" = none ∧ account_name_parent "" ≠ some "" := by decide

/-- Claim C2 (amended): for every non-empty string, `account_name_parent`
returns the name with its last colon-segment removed and the rest re-joined
with colons; for a root-level name (a single segment, no colon) that result is
the empty string; but for the empty-string input the result is `None`, not the
empty string. -/
theorem account_name_parent_spec :
    (∀ n, n ≠ "" → account_name_parent n = some (pyJoinColon ((pySplitColon n).dropLast))) ∧
    (∀ n, n ≠ "" → (pySplitColon n).length = 1 → account_name_parent n = some "") ∧
    account_name_parent "" = none ∧
    account_name_parent "Assets:US:Checking" = some "Assets:US" ∧
    account_name_parent "Assets" = some "" := by
  refine ⟨fun n hn => ?_, fun n hn h1 => ?_, rfl, by decide, by decide⟩
  · simp [account_name_parent, hn]
  · have hdrop : (pySplitColon n).dropLast = [] := by
      cases hs : pySplitColon n with
      | nil => rfl
      | cons x xs =>
        cases xs with
        | nil => rfl
        | cons y ys => rw [hs] at h1; simp at h1
    simp [account_name_parent, hn, hdrop, pyJoinColon]

theorem account_name_parent_spec_witness :
    account_name_parent "Income:Salary" =
      some (pyJoinColon ((pySplitColon "Income:Salary").dropLast)) ∧
    account_name_parent "Equity" = some "" :=
  ⟨account_name_parent_spec.1 "Income:Salary" (by decide),
   account_name_parent_spec.2.1 "Equity" (by decide) (by decide)⟩

/-- Claim C3, code bug: `account_name_leaf` never returns the final
colon-segment of its argument — its conditional reads the undefined free
variable `name`, so every call fails with `NameError`, contradicting its own
docstring.  The intended behaviour (modelled from the spec as
`spec_leaf_name`) would return `some "Checking"` on `"Assets:US:Checking"` and
`none` on the empty string. -/
theorem account_name_leaf_always_fails :
    (∀ s, account_name_leaf s = Except.error PyError.nameError) ∧
    spec_leaf_name "Assets:US:Checking" = some "Checking" ∧
    spec_leaf_name "" = none :=
  ⟨fun _ => rfl, by decide, rfl⟩

/-- Claim C4, counterexample: the dictionary `{"a": "Foo:Bar"}` makes
`accountify_dict` fail with `InvalidAccountType`: the value passes the grammar
check, so `account_from_name` is called, and its root-type assertion fires. -/
theorem accountify_dict_can_fail :
    accountify_dict [("a", PyValue.pyStr "Foo:Bar")] =
      Except.error PyError.invalidAccountType :=
  rfl

/-- Claim C4 (amended): whenever every string value that passes the grammar
check also has a registered first segment, `accountify_dict` succeeds and
returns a dictionary with exactly the same keys, in which every string value
passing `is_account_name` is replaced by the constructed `Account` and every
other value is unchanged.  (Without that proviso it can fail: a grammar-valid
string with an unregistered root type raises `InvalidAccountType`.) -/
theorem accountify_dict_spec (d : List (String × PyValue))
    (h : ∀ kv ∈ d, good_value kv.2) :
    accountify_dict d = Except.ok (d.map (fun kv => (kv.1, specCoerceValue kv.2))) ∧
    (d.map (fun kv => (kv.1, specCoerceValue kv.2))).map Prod.fst = d.map Prod.fst := by
  refine ⟨accountify_dict_ok d h, ?_⟩
  induction d with
  | nil => rfl
  | cons kv rest ih => simp

theorem accountify_dict_spec_witness :
    accountify_dict [("a", PyValue.pyStr "Assets:Cash"), ("b", PyValue.pyInt 42)] =
      Except.ok [("a", PyValue.pyAccount { name := "Assets:Cash", type := "Assets" }),
        ("b", PyValue.pyInt 42)] :=
  (accountify_dict_spec [("a", PyValue.pyStr "Assets:Cash"), ("b", PyValue.pyInt 42)]
    (by decide)).1

/-- Claim C5, counterexample: `is_account_name` accepts `"Assets:Cash\n"`,
a string with a trailing newline after the last segment, because Python's `$`
anchor also matches just before a newline that ends the string; so the claim
that it accepts only strings with *no other characters before or after* the
segments (formalised as `specValidName`) is false. -/
theorem is_account_name_accepts_trailing_newline :
    is_account_name "Assets:Cash\n" = true ∧ specValidName "Assets:Cash\n" = false := by
  decide

/-- Claim C5 (amended): `is_account_name text` is true iff `text`, after
removing a single trailing newline if one is present, consists of at least two
colon-separated segments each matching `[A-Z][A-Za-z0-9-]+` with no other
characters before or after (the spec's grammar, `specValidName`); it never
raises, and it rejects a bare root-type string. -/
theorem is_account_name_spec :
    (∀ s, is_account_name s =
        (if s.data.getLast? = some '\n' then specValidName (String.mk s.data.dropLast)
         else specValidName s)) ∧
    is_account_name "Assets:US:Checking" = true ∧
    is_account_name "assets:US:Checking" = false ∧
    is_account_name "Assets" = false ∧
    is_account_name "Assets:Cash\n" = true ∧
    is_account_name "A:B" = false := by
  refine ⟨fun s => ?_, by decide, by decide, by decide, by decide, by decide⟩
  simp [is_account_name, is_account_name_core_eq_spec]

/-- Claim C6: `account_name_type` and `account_from_name` fail — always with
`InvalidAccountType` — exactly when the first colon-segment of the name is not
a registered root type; when it is registered, `account_name_type` returns
that segment and `account_from_name` succeeds.  In particular both fail on
`"Foo:Bar"`. -/
theorem account_type_validation_iff :
    (∀ n, account_name_type n = Except.error PyError.invalidAccountType ↔
        ACCOUNT_TYPES.contains (firstSegment n) = false) ∧
    (∀ n, account_from_name n = Except.error PyError.invalidAccountType ↔
        ACCOUNT_TYPES.contains (firstSegment n) = false) ∧
    (∀ n, account_name_type n = Except.ok (firstSegment n) ↔
        ACCOUNT_TYPES.contains (firstSegment n) = true) ∧
    (∀ n, (∃ a, account_from_name n = Except.ok a) ↔
        ACCOUNT_TYPES.contains (firstSegment n) = true) ∧
    account_from_name "Foo:Bar" = Except.error PyError.invalidAccountType ∧
    account_name_type "Foo:Bar" = Except.error PyError.invalidAccountType := by
  refine ⟨fun n => ?_, fun n => ?_, fun n => ?_, fun n => ?_, rfl, rfl⟩ <;>
    cases hc : ACCOUNT_TYPES.contains (firstSegment n) with
  | false => simp [account_name_type_eq_error n hc, account_from_name_eq_error n hc]
  | true => simp [account_name_type_eq_ok n hc, account_from_name_eq_ok n hc]

/-- Claim C7: for Accounts whose types both carry a rank (i.e. are registered
root types), the sort keys are the rank/name pairs, and under the tuple order
`keyLt`: accounts of different types compare exactly by their taxonomy ranks,
while accounts of equal types compare exactly by lexicographic (code-point)
order of their full names. -/
theorem account_sortkey_consistent (a b : Account) (ra rb : Nat)
    (ha : TYPES_ORDER a.type = some ra) (hb : TYPES_ORDER b.type = some rb) :
    account_sortkey a = Except.ok (ra, a.name) ∧
    account_sortkey b = Except.ok (rb, b.name) ∧
    (a.type ≠ b.type → (keyLt (ra, a.name) (rb, b.name) ↔ ra < rb)) ∧
    (a.type = b.type → (keyLt (ra, a.name) (rb, b.name) ↔ a.name < b.name)) := by
  refine ⟨by simp [account_sortkey, ha], by simp [account_sortkey, hb], ?_, ?_⟩
  · intro hne
    unfold keyLt
    constructor
    · rintro (h | ⟨heq, -⟩)
      · exact h
      · have heq' : ra = rb := heq
        have hb' : TYPES_ORDER b.type = some ra := by rw [heq']; exact hb
        exact absurd (TYPES_ORDER_inj a.type b.type ra ha hb') hne
    · exact Or.inl
  · intro heq
    rw [heq] at ha
    rw [ha] at hb
    have hr : ra = rb := by injection hb
    unfold keyLt
    constructor
    · rintro (h | ⟨-, h2⟩)
      · exact absurd (show ra < rb from h) (by omega)
      · exact h2
    · exact fun h => Or.inr ⟨hr, h⟩

theorem account_sortkey_consistent_witness :
    account_sortkey { name := "Assets:Cash", type := "Assets" } =
      Except.ok (0, "Assets:Cash") ∧
    keyLt (0, "Assets:Cash") (3, "Income:Salary") := by
  have h := account_sortkey_consistent { name := "Assets:Cash", type := "Assets" }
    { name := "Income:Salary", type := "Income" } 0 3 rfl rfl
  exact ⟨h.1, (h.2.2.1 (by decide)).mpr (by decide)⟩

/-- Claim C8: when the options mapping supplies the five role keys,
`is_balance_sheet_account` returns (without failing) true exactly when the
account's type equals the configured assets, liabilities or equity name, and
`is_income_statement_account` returns true exactly when the type equals the
configured income or expenses name. -/
theorem classification_matches_config (a : Account) (options : String → Option String)
    (va vl ve vi vx : String)
    (h1 : options "name_assets" = some va) (h2 : options "name_liabilities" = some vl)
    (h3 : options "name_equity" = some ve) (h4 : options "name_income" = some vi)
    (h5 : options "name_expenses" = some vx) :
    (is_balance_sheet_account a options = Except.ok true ↔
      (a.type = va ∨ a.type = vl ∨ a.type = ve)) ∧
    (is_income_statement_account a options = Except.ok true ↔ (a.type = vi ∨ a.type = vx)) ∧
    (∃ b1, is_balance_sheet_account a options = Except.ok b1) ∧
    (∃ b2, is_income_statement_account a options = Except.ok b2) := by
  have hb := is_balance_sheet_account_eval a options va vl ve h1 h2 h3
  have hi := is_income_statement_account_eval a options vi vx h4 h5
  refine ⟨?_, ?_, ⟨_, hb⟩, ⟨_, hi⟩⟩
  · rw [hb]; simp
  · rw [hi]; simp

theorem classification_matches_config_witness :
    is_balance_sheet_account { name := "Assets:Cash", type := "Assets" } sampleOptions =
      Except.ok true ∧
    (∃ b, is_income_statement_account { name := "Assets:Cash", type := "Assets" }
      sampleOptions = Except.ok b) := by
  have h := classification_matches_config { name := "Assets:Cash", type := "Assets" }
    sampleOptions "Assets" "Liabilities" "Equity" "Income" "Expenses" rfl rfl rfl rfl rfl
  exact ⟨h.1.mpr (Or.inl rfl), h.2.2.2⟩

/-- Claim C9: computing the sort key directly from a name agrees with first
constructing the Account and then taking its sort key: whenever
`account_from_name n` succeeds with account `a`, `account_name_sortkey n`
equals `account_sortkey a`. -/
theorem account_name_sortkey_coherent (n : String) (a : Account)
    (h : account_from_name n = Except.ok a) :
    account_name_sortkey n = account_sortkey a := by
  obtain ⟨hc, rfl⟩ := account_from_name_ok_inv n a h
  simp [account_name_sortkey, account_sortkey, account_name_type_eq_ok n hc]

theorem account_name_sortkey_coherent_witness :
    account_name_sortkey "Liabilities:Card" =
      account_sortkey { name := "Liabilities:Card", type := "Liabilities" } :=
  account_name_sortkey_coherent "Liabilities:Card"
    { name := "Liabilities:Card", type := "Liabilities" } rfl

/-- Claim C10: under an options mapping that supplies the five role keys with
pairwise-distinct values, no account is classified as both a balance-sheet
account and an income-statement account. -/
theorem classifications_mutually_exclusive (a : Account) (options : String → Option String)
    (va vl ve vi vx : String)
    (h1 : options "name_assets" = some va) (h2 : options "name_liabilities" = some vl)
    (h3 : options "name_equity" = some ve) (h4 : options "name_income" = some vi)
    (h5 : options "name_expenses" = some vx)
    (hd : va ≠ vl ∧ va ≠ ve ∧ va ≠ vi ∧ va ≠ vx ∧ vl ≠ ve ∧ vl ≠ vi ∧ vl ≠ vx ∧
      ve ≠ vi ∧ ve ≠ vx ∧ vi ≠ vx) :
    ¬(is_balance_sheet_account a options = Except.ok true ∧
      is_income_statement_account a options = Except.ok true) := by
  obtain ⟨-, -, d3, d4, -, d6, d7, d8, d9, -⟩ := hd
  rintro ⟨hbt, hit⟩
  rw [is_balance_sheet_account_eval a options va vl ve h1 h2 h3] at hbt
  rw [is_income_statement_account_eval a options vi vx h4 h5] at hit
  simp only [Except.ok.injEq] at hbt hit
  simp at hbt hit
  rcases hbt with h | h | h <;> rcases hit with h2 | h2
  · exact d3 (h ▸ h2)
  · exact d4 (h ▸ h2)
  · exact d6 (h ▸ h2)
  · exact d7 (h ▸ h2)
  · exact d8 (h ▸ h2)
  · exact d9 (h ▸ h2)

theorem classifications_mutually_exclusive_witness :
    ¬(is_balance_sheet_account { name := "Assets:Cash", type := "Assets" } sampleOptions =
        Except.ok true ∧
      is_income_statement_account { name := "Assets:Cash", type := "Assets" } sampleOptions =
        Except.ok true) :=
  classifications_mutually_exclusive { name := "Assets:Cash", type := "Assets" } sampleOptions
    "Assets" "Liabilities" "Equity" "Income" "Expenses" rfl rfl rfl rfl rfl (by decide)

end Beancount
